import Mathlib

/-!
Shallow embedding of the `errors` Go package (`src/errors.go`).

Modelling conventions:

* Go's `error` interface values are modelled by the inductive `GoError`.
  A nil interface is the constructor `GoError.nil`; a plain error carrying
  only a message is `GoError.plain`; an `ExtendedError` stored in the
  interface *by value* is `GoError.ext`, and stored *as a pointer*
  (`*ExtendedError`, what the constructor `New` returns) is `GoError.extPtr`.
  The distinction matters because the dispatcher's type assertion
  `err.(ExtendedError)` (line 215) matches only the value form.
* Go `any` arguments are modelled by `GoAny`: either a string or a
  non-string value carrying the text `fmt.Sprint` would render for it.
* The pluggable log/print functions are modelled by the identifiers
  `LogFn` / `PrintFn`; invoking one is recorded as an `Event` so that a
  handling run is a pure value: the list of print/log calls it performs.
* A Go panic (from the unchecked type assertion `m.(string)` in
  `concatMsg`, line 174) is modelled by `Option`: `none` means the call
  panics and produces no result.
* Stack-trace capture (`pkgerr.WithStack` + `stackFrames`, lines 140-167)
  reads the runtime call stack, which has no pure counterpart.  `handle`
  therefore takes the rendered stack text as an extra parameter `stRaw`;
  the one branch of `stackFrames` that is decided by the program itself
  (`fr == 0` returns `""`, line 153) is embedded.  No claim depends on the
  contents of the stack text.
* The package-level variables `ErrLogger`/`FailLogger`/`ErrPrinter`
  default to `errlog`/`faillog`/`print`; the claims are about the default
  configuration, so the defaults are used directly in `New`.
-/

/-- The three classification-id constants (lines 11-15).  Note the trailing
spaces, present in the source literals. -/
def LogErr : String := "Log and return "

/-- `Panic = "Log and panic "` (line 13). -/
def Panic : String := "Log and panic "

/-- `Fail = "Log and exit "` (line 14). -/
def Fail : String := "Log and exit "

/-- Identifier for a value of Go type `LogFunc`: the default `errlog`
(line 27), the default fatal `faillog` (line 44), or a user-supplied
function. -/
inductive LogFn : Type where
  | errlog : LogFn
  | faillog : LogFn
  | custom : Nat → LogFn
deriving DecidableEq, Repr

/-- Identifier for a value of Go type `PrintFunc`: the default `print`
(line 54) or a user-supplied function. -/
inductive PrintFn : Type where
  | print : PrintFn
  | custom : Nat → PrintFn
deriving DecidableEq, Repr

/-- Package-level default logger variable `ErrLogger = errlog` (line 20). -/
def ErrLogger : LogFn := LogFn.errlog

/-- Package-level default fatal logger `FailLogger = faillog` (line 21). -/
def FailLogger : LogFn := LogFn.faillog

/-- Package-level default printer `ErrPrinter = print` (line 22). -/
def ErrPrinter : PrintFn := PrintFn.print

/-- An observable call made during handling: either the print function was
invoked with a user-facing message, or the log function was invoked with
the classification id (used as log prefix) and the detail string. -/
inductive Event : Type where
  | print : PrintFn → String → Event
  | log : LogFn → String → String → Event
deriving DecidableEq, Repr

mutual
/-- A Go `error` interface value (see module docstring). -/
inductive GoError : Type where
  | nil : GoError
  | plain : String → GoError
  | ext : ExtendedError → GoError
  | extPtr : ExtendedError → GoError

/-- The struct `ExtendedError` (lines 63-72), fields in source order:
`werr`, `Id`, `usermsg`, `level`, `logfn`, `printfn`, `stackFrames`,
`Handled`. -/
inductive ExtendedError : Type where
  | mk : GoError → String → String → Int → LogFn → PrintFn → Int → Bool →
      ExtendedError
end

deriving instance DecidableEq for GoError
deriving instance DecidableEq for ExtendedError

/-- Field `werr`: the wrapped error, `GoError.nil` when absent. -/
def ExtendedError.werr : ExtendedError → GoError
  | .mk w _ _ _ _ _ _ _ => w

/-- Field `Id`: the stored classification id. -/
def ExtendedError.Id : ExtendedError → String
  | .mk _ i _ _ _ _ _ _ => i

/-- Field `usermsg`: the user-facing message. -/
def ExtendedError.usermsg : ExtendedError → String
  | .mk _ _ u _ _ _ _ _ => u

/-- Field `level`: the logging severity level. -/
def ExtendedError.level : ExtendedError → Int
  | .mk _ _ _ l _ _ _ _ => l

/-- Field `logfn`: the configured log function. -/
def ExtendedError.logfn : ExtendedError → LogFn
  | .mk _ _ _ _ lf _ _ _ => lf

/-- Field `printfn`: the configured print function. -/
def ExtendedError.printfn : ExtendedError → PrintFn
  | .mk _ _ _ _ _ pf _ _ => pf

/-- Field `stackFrames`: the stack-frame budget. -/
def ExtendedError.stackFrames : ExtendedError → Int
  | .mk _ _ _ _ _ _ sf _ => sf

/-- Field `Handled`: set after a handling call completes. -/
def ExtendedError.Handled : ExtendedError → Bool
  | .mk _ _ _ _ _ _ _ h => h

/-- Functional update of the `Handled` field (the assignment
`e.Handled = true` on line 123). -/
def ExtendedError.withHandled : ExtendedError → Bool → ExtendedError
  | .mk w i u l lf pf sf _, b => .mk w i u l lf pf sf b

/-- `New(err, id, usermsg)` (lines 76-90).  Defaults are
`level=1, stackFrames=3, logfn=ErrLogger, printfn=ErrPrinter`; a `Fail` or
`Panic` id switches to the fatal logger, level 4 and unlimited stack
frames; any other id is normalized to `LogErr`.  Finally `werr` is set to
`err` (a nil `err` leaves it nil, which the assignment reproduces). -/
def New (err : GoError) (id : String) (usermsg : String) : ExtendedError :=
  if id = Fail ∨ id = Panic then
    ExtendedError.mk err id usermsg 4 FailLogger ErrPrinter (-1) false
  else
    ExtendedError.mk err LogErr usermsg 1 ErrLogger ErrPrinter 3 false

/-- `(*ExtendedError).Log(level, logfn...)` (lines 96-102): sets the level
and, when the variadic argument is non-empty, the log function. -/
def ExtendedError.Log (e : ExtendedError) (level : Int) (logfn : List LogFn) :
    ExtendedError :=
  match e, logfn with
  | .mk w i u _ lf pf sf h, [] => .mk w i u level lf pf sf h
  | .mk w i u _ _ pf sf h, lf :: _ => .mk w i u level lf pf sf h

/-- `(*ExtendedError).Print(printfn)` (lines 105-108). -/
def ExtendedError.Print (e : ExtendedError) (printfn : PrintFn) :
    ExtendedError :=
  match e with
  | .mk w i u l lf _ sf h => .mk w i u l lf printfn sf h

/-- `(*ExtendedError).Stack(frames)` (lines 114-117). -/
def ExtendedError.Stack (e : ExtendedError) (frames : Int) : ExtendedError :=
  match e with
  | .mk w i u l lf pf _ h => .mk w i u l lf pf frames h

mutual
/-- `Error()` of whatever error value is stored in an interface.  For
`GoError.nil` Go would panic on the nil interface; that case is never
reached here (every caller guards on `werr != nil`), and the value returned
for it is irrelevant to all theorems below. -/
def GoError.errorMsg : GoError → String
  | .nil => ""
  | .plain s => s
  | .ext e => ExtendedError.Error e
  | .extPtr e => ExtendedError.Error e

/-- `(ExtendedError).Error()` (lines 127-134): `usermsg`, plus
`": " + werr.Error()` when a wrapped error is present. -/
def ExtendedError.Error : ExtendedError → String
  | .mk .nil _ u _ _ _ _ _ => u
  | .mk w _ u _ _ _ _ _ => u ++ ": " ++ GoError.errorMsg w
end

/-- `(ExtendedError).Unwrap()` (lines 136-138). -/
def ExtendedError.Unwrap (e : ExtendedError) : GoError := e.werr

/-- A Go `any` argument: a string, or a non-string value together with the
text `fmt.Sprint` renders for it. -/
inductive GoAny : Type where
  | str : String → GoAny
  | nonStr : String → GoAny
deriving DecidableEq, Repr

/-- `fmt.Sprint(m)` for a single operand. -/
def sprint : GoAny → String
  | .str s => s
  | .nonStr r => r

/-- `strings.TrimRight(s, " ")` (line 174): remove trailing space
characters. -/
def trimRightSpaces (s : String) : String :=
  ⟨(s.data.reverse.dropWhile (fun c => c = ' ')).reverse⟩

/-- The per-element work of the `concatMsg` loop after the first element
(lines 177-181): the last element is printed bare, every middle element is
followed by `", "`. -/
def concatRest : List GoAny → String
  | [] => ""
  | [m] => sprint m
  | m :: rest => sprint m ++ ", " ++ concatRest rest

/-- `concatMsg(msg...)` (lines 169-186).  With no arguments the result is
`""`.  Otherwise the first element goes through the unchecked assertion
`m.(string)` — a non-string first element panics (`none`) — and is
trailing-space-trimmed and suffixed with `": "`; the remaining elements
follow `concatRest`; a final newline is appended. -/
def concatMsg : List GoAny → Option String
  | [] => some ""
  | GoAny.str s :: rest =>
      some (trimRightSpaces s ++ ": " ++ concatRest rest ++ "\n")
  | GoAny.nonStr _ :: _ => none

/-- `handle(err, logmsg)` (lines 188-206), with the runtime-rendered stack
text abstracted as `stRaw` (see module docstring).  Returns the list of
print/log calls performed, in order: the print function always runs with
the display message; the log function runs only when `level > 0`, with the
classification id and the formatted detail (stack segment omitted when
`stackFrames == 0`, mirroring line 153's early return inside
`stackFrames`). -/
def handle (err : ExtendedError) (logmsg : String) (stRaw : String) :
    List Event :=
  let em := match err.werr with
    | GoError.nil => err.usermsg
    | w => err.usermsg ++ ": " ++ w.errorMsg
  let st := if err.stackFrames = 0 then "" else stRaw
  Event.print err.printfn em ::
    (if err.level > 0 then
      if err.stackFrames = 0 then
        [Event.log err.logfn err.Id
          (logmsg ++ "\nPrinted for user: " ++ err.Error ++ "\n")]
      else
        [Event.log err.logfn err.Id
          (logmsg ++ "\nPrinted for user: " ++ err.Error ++ "\n" ++ st ++ " ")]
    else [])

/-- `(*ExtendedError).Handle(logmsg...)` (lines 121-125): runs `handle`
with the concatenated context messages, marks the receiver handled, and
returns `*e` — the receiver *as an `ExtendedError` value*.  `none` when
`concatMsg` panics. -/
def ExtendedError.Handle (e : ExtendedError) (logmsg : List GoAny)
    (stRaw : String) : Option (GoError × List Event) :=
  match concatMsg logmsg with
  | none => none
  | some lm => some (GoError.ext (e.withHandled true), handle e lm stRaw)

/-- The free dispatcher `Handle(err, msg...)` (lines 210-228).  A nil
error is returned unchanged with no handling; an `ExtendedError` *value*
delegates to the method with all context arguments; otherwise, when the
first context argument is a string it is taken as the classification id
and the rest (through `concatMsg`, which may panic) become the user
message of a freshly constructed error that is handled with no context;
any other shape returns the original error unchanged.  The constructor
called on line 222 is `NewExtendedError`, the name the doc comment on
line 74 gives to `New`; it is modelled by `New`. -/
def Handle (err : GoError) (msg : List GoAny) (stRaw : String) :
    Option (GoError × List Event) :=
  match err with
  | GoError.nil => some (GoError.nil, [])
  | GoError.ext e => ExtendedError.Handle e msg stRaw
  | _ =>
    match msg with
    | GoAny.str t :: rest =>
        match concatMsg rest with
        | none => none
        | some um => ExtendedError.Handle (New err t um) [] stRaw
    | _ => some (err, [])

/-- Spec-side join rule for the context messages after the first
("middle messages are joined with `", "`, the last has no trailing
separator"), stated from the spec's words for the refinement in C2. -/
def specJoin : List String → String
  | [] => ""
  | [last] => last
  | mid :: rest => mid ++ ", " ++ specJoin rest

/-- Spec-side concatenation rule, stated from the spec's words for the
refinement in C2: first message trailing-space-trimmed and followed by
`": "`, the rest joined by `specJoin`, a newline appended when any
messages were supplied, `""` otherwise. -/
def specConcat : List String → String
  | [] => ""
  | first :: rest => trimRightSpaces first ++ ": " ++ specJoin rest ++ "\n"

/-! ## Helper lemmas -/

/-- The display message computed inline in `handle` (lines 191-194) agrees
with `Error()` (lines 127-134): the two code paths compute the same
string. -/
theorem display_eq_Error (e : ExtendedError) :
    (match e.werr with
      | GoError.nil => e.usermsg
      | w => e.usermsg ++ ": " ++ w.errorMsg) = e.Error := by
  cases e with
  | mk w i u l lf pf sf hd => cases w <;> rfl

/-- The loop body of `concatMsg` after the first element agrees with the
spec's join rule when all elements are strings. -/
theorem concatRest_map_str (rest : List String) :
    concatRest (rest.map GoAny.str) = specJoin rest := by
  induction rest with
  | nil => rfl
  | cons x xs ih =>
    cases xs with
    | nil => rfl
    | cons y ys =>
      simp only [List.map, concatRest, sprint, specJoin] at ih ⊢
      rw [ih]

/-! ## Claims -/

/-- C1 (counterexample): dispatching the plain error `"boom"` with context
`("SomeId", "detail")` promotes it and handles it, but the classification
id passed to the log function is the normalized constant
`"Log and return "`, not `"SomeId"`, and the returned error's `Error()` is
`"detail: \n: boom"` (the user message keeps the `": "` and newline that
`concatMsg` appended), so the claim fails at this input. -/
theorem C1_counterexample :
    Handle (GoError.plain "boom") [GoAny.str "SomeId", GoAny.str "detail"]
        "STK" =
      some (GoError.ext (ExtendedError.mk (GoError.plain "boom")
          "Log and return " "detail: \n" 1 LogFn.errlog PrintFn.print 3 true),
        [Event.print PrintFn.print "detail: \n: boom",
         Event.log LogFn.errlog "Log and return "
           "\nPrinted for user: detail: \n: boom\nSTK "]) ∧
    "Log and return " ≠ "SomeId" :=
  ⟨rfl, by decide⟩

/-- C1 (amended): `Dispatch(plainErr, "SomeId", "detail")` returns a
handled error whose `Error()` is `"detail: \n: "` followed by `plainErr`'s
message (the literal `"detail: "` and the message are separated by the
newline and `": "` that promotion inserts), and the classification id
passed to the log function is the normalized constant `"Log and return "`,
because construction normalizes every non-sentinel id. -/
theorem C1_amended (m st : String) :
    Handle (GoError.plain m) [GoAny.str "SomeId", GoAny.str "detail"] st =
      some (GoError.ext (ExtendedError.mk (GoError.plain m) LogErr
          "detail: \n" 1 LogFn.errlog PrintFn.print 3 true),
        [Event.print PrintFn.print ("detail: \n: " ++ m),
         Event.log LogFn.errlog LogErr
           ("\nPrinted for user: " ++ ("detail: \n: " ++ m) ++ "\n" ++ st
             ++ " ")]) ∧
    (ExtendedError.mk (GoError.plain m) LogErr "detail: \n" 1 LogFn.errlog
        PrintFn.print 3 true).Error = "detail: \n: " ++ m ∧
    (ExtendedError.mk (GoError.plain m) LogErr "detail: \n" 1 LogFn.errlog
        PrintFn.print 3 true).Handled = true :=
  ⟨rfl, rfl, rfl⟩

/-- C2: the context-message concatenation `concatMsg` yields
`"A: B, C\n"` on `("A", "B", "C")`, `"A: \n"` on `("A")` (the single
element takes the first-element branch, so it keeps the `": "` label
separator), `""` on no arguments, and on any list of strings it agrees
with the spec's rule `specConcat` (first trimmed and labelled with `": "`,
middles joined with `", "`, last bare, newline appended when non-empty). -/
theorem C2_concatMsg :
    concatMsg [GoAny.str "A", GoAny.str "B", GoAny.str "C"] =
      some "A: B, C\n" ∧
    concatMsg [GoAny.str "A"] = some "A: \n" ∧
    concatMsg [] = some "" ∧
    ∀ msgs : List String, concatMsg (msgs.map GoAny.str) =
      some (specConcat msgs) := by
  refine ⟨by decide, by decide, rfl, ?_⟩
  intro msgs
  cases msgs with
  | nil => rfl
  | cons first rest =>
    simp only [List.map, concatMsg, specConcat, concatRest_map_str]

/-- C3: for every wrapped error (nil included), constructing with the
`Panic` or `Fail` classification id yields severity level 4, the negative
("unlimited") stack-frame budget `-1`, and the fatal logger as the log
function; and the non-configuration call `Handle` preserves all three
settings on the error value it returns. -/
theorem C3_panic_fail_construction (werr : GoError) (id um : String)
    (h : id = Panic ∨ id = Fail) :
    (New werr id um).level = 4 ∧ (New werr id um).stackFrames = -1 ∧
    (New werr id um).stackFrames < 0 ∧
    (New werr id um).logfn = FailLogger ∧
    ∀ msgs st r evs, (New werr id um).Handle msgs st = some (r, evs) →
      ∃ e', r = GoError.ext e' ∧ e'.level = 4 ∧ e'.stackFrames = -1 ∧
        e'.logfn = FailLogger := by
  have hc : id = Fail ∨ id = Panic := h.elim Or.inr Or.inl
  simp only [New, if_pos hc]
  refine ⟨rfl, rfl, ?_, rfl, ?_⟩
  · show (-1 : Int) < 0
    decide
  intro msgs st r evs hh
  cases hcm : concatMsg msgs with
  | none => simp [ExtendedError.Handle, hcm] at hh
  | some lm =>
    simp only [ExtendedError.Handle, hcm, Option.some.injEq,
      Prod.mk.injEq] at hh
    exact ⟨_, hh.1.symm, rfl, rfl, rfl⟩

/-- C3 witness: instantiation at `Panic`, a nil wrapped error and user
message `"x"`. -/
theorem C3_witness :
    (New GoError.nil Panic "x").level = 4 ∧
    (New GoError.nil Panic "x").stackFrames = -1 ∧
    (New GoError.nil Panic "x").stackFrames < 0 ∧
    (New GoError.nil Panic "x").logfn = FailLogger ∧
    ∀ msgs st r evs, (New GoError.nil Panic "x").Handle msgs st =
        some (r, evs) →
      ∃ e', r = GoError.ext e' ∧ e'.level = 4 ∧ e'.stackFrames = -1 ∧
        e'.logfn = FailLogger :=
  C3_panic_fail_construction GoError.nil Panic "x" (Or.inl rfl)

/-- C4: constructing with any id other than the `Panic` and `Fail`
constants stores the generic `LogErr` constant as the classification id,
with the defaults level 1 and stack-frame budget 3. -/
theorem C4_other_id_normalized (werr : GoError) (id um : String)
    (h1 : id ≠ Panic) (h2 : id ≠ Fail) :
    (New werr id um).Id = LogErr ∧ (New werr id um).level = 1 ∧
    (New werr id um).stackFrames = 3 := by
  have hc : ¬(id = Fail ∨ id = Panic) := by
    rintro (hf | hp)
    · exact h2 hf
    · exact h1 hp
  simp only [New, if_neg hc]
  exact ⟨rfl, rfl, rfl⟩

/-- C4 witness: instantiation at the arbitrary non-sentinel id
`"SomeId"`. -/
theorem C4_witness :
    (New (GoError.plain "boom") "SomeId" "msg").Id = LogErr ∧
    (New (GoError.plain "boom") "SomeId" "msg").level = 1 ∧
    (New (GoError.plain "boom") "SomeId" "msg").stackFrames = 3 :=
  C4_other_id_normalized (GoError.plain "boom") "SomeId" "msg"
    (by decide) (by decide)

/-- C5: with a non-nil wrapped error and a non-empty user message,
`Error()` is `usermsg ++ ": " ++ wrapped.Error()`; with a nil wrapped
error it is `usermsg` alone. -/
theorem C5_Error_shape (w : GoError) (i u : String) (l : Int) (lf : LogFn)
    (pf : PrintFn) (sf : Int) (hd : Bool) (hw : w ≠ GoError.nil)
    (_hu : u ≠ "") :
    (ExtendedError.mk w i u l lf pf sf hd).Error =
      u ++ ": " ++ w.errorMsg ∧
    (ExtendedError.mk GoError.nil i u l lf pf sf hd).Error = u := by
  refine ⟨?_, rfl⟩
  cases w with
  | nil => exact absurd rfl hw
  | plain s => rfl
  | ext e => rfl
  | extPtr e => rfl

/-- C5 witness: instantiation at the wrapped plain error `"boom"` and
user message `"msg"`. -/
theorem C5_witness :
    (ExtendedError.mk (GoError.plain "boom") LogErr "msg" 1 LogFn.errlog
        PrintFn.print 3 false).Error =
      "msg" ++ ": " ++ (GoError.plain "boom").errorMsg ∧
    (ExtendedError.mk GoError.nil LogErr "msg" 1 LogFn.errlog
        PrintFn.print 3 false).Error = "msg" :=
  C5_Error_shape (GoError.plain "boom") LogErr "msg" 1 LogFn.errlog
    PrintFn.print 3 false (by decide) (by decide)

/-- C6: when the severity level is 0, `handle` performs exactly one call —
the configured print function with the display string `Error()` — and no
log call; when the level is positive, the log function is invoked (with
the classification id and some detail string) after that same print
call. -/
theorem C6_level_gate (e : ExtendedError) (lm st : String) :
    (e.level = 0 → handle e lm st = [Event.print e.printfn e.Error]) ∧
    (0 < e.level → ∃ d, handle e lm st =
      [Event.print e.printfn e.Error, Event.log e.logfn e.Id d]) := by
  rw [handle, display_eq_Error]
  constructor
  · intro h0
    rw [h0]
    simp
  · intro hpos
    rw [if_pos hpos]
    by_cases hsf : e.stackFrames = 0
    · rw [if_pos hsf]
      exact ⟨_, rfl⟩
    · rw [if_neg hsf]
      exact ⟨_, rfl⟩

/-- C6 witness: a level-0 error prints only, and a level-1 error also
logs. -/
theorem C6_witness :
    handle (ExtendedError.mk (GoError.plain "p") LogErr "m" 0 LogFn.errlog
        PrintFn.print 3 false) "lm" "st" =
      [Event.print PrintFn.print "m: p"] ∧
    ∃ d, handle (ExtendedError.mk (GoError.plain "p") LogErr "m" 1
        LogFn.errlog PrintFn.print 3 false) "lm" "st" =
      [Event.print PrintFn.print "m: p",
       Event.log LogFn.errlog LogErr d] :=
  ⟨(C6_level_gate (ExtendedError.mk (GoError.plain "p") LogErr "m" 0
      LogFn.errlog PrintFn.print 3 false) "lm" "st").1 rfl,
   (C6_level_gate (ExtendedError.mk (GoError.plain "p") LogErr "m" 1
      LogFn.errlog PrintFn.print 3 false) "lm" "st").2 (by decide)⟩

/-- C7: dispatching a nil error returns nil and performs no handling at
all — no print call, no log call — for every list of context arguments. -/
theorem C7_nil_dispatch_noop (msgs : List GoAny) (st : String) :
    Handle GoError.nil msgs st = some (GoError.nil, []) := rfl

/-- C8: a non-nil error that is not an `ExtendedError` value, dispatched
with no context arguments or with a non-string first context argument, is
returned unchanged with no handling performed (no events, no
promotion). -/
theorem C8_malformed_passthrough (ge : GoError) (msgs : List GoAny)
    (st : String) (hnil : ge ≠ GoError.nil)
    (hext : ∀ e, ge ≠ GoError.ext e)
    (hm : msgs = [] ∨ ∃ r rest, msgs = GoAny.nonStr r :: rest) :
    Handle ge msgs st = some (ge, []) := by
  cases ge with
  | nil => exact absurd rfl hnil
  | ext e => exact absurd rfl (hext e)
  | plain s => rcases hm with rfl | ⟨r, rest, rfl⟩ <;> rfl
  | extPtr e => rcases hm with rfl | ⟨r, rest, rfl⟩ <;> rfl

/-- C8 witness: the plain error `"boom"` passes through unchanged both
with no context arguments and with a non-string first context argument. -/
theorem C8_witness :
    Handle (GoError.plain "boom") [] "st" =
      some (GoError.plain "boom", []) ∧
    Handle (GoError.plain "boom") [GoAny.nonStr "42"] "st" =
      some (GoError.plain "boom", []) :=
  ⟨C8_malformed_passthrough (GoError.plain "boom") [] "st"
      (fun h => GoError.noConfusion h) (fun _ h => GoError.noConfusion h)
      (Or.inl rfl),
   C8_malformed_passthrough (GoError.plain "boom") [GoAny.nonStr "42"] "st"
      (fun h => GoError.noConfusion h) (fun _ h => GoError.noConfusion h)
      (Or.inr ⟨"42", [], rfl⟩)⟩

/-- C9: `concatMsg` with at least one message whose first element is not a
string panics through the unchecked assertion `m.(string)` (modelled as
`none`); consequently the method `(*ExtendedError).Handle` with a
non-string first context argument panics, and so does the dispatcher when
it delegates to an `ExtendedError` value with such arguments. -/
theorem C9_nonstring_first_panics (r : String) (rest : List GoAny)
    (e : ExtendedError) (st : String) :
    concatMsg (GoAny.nonStr r :: rest) = none ∧
    e.Handle (GoAny.nonStr r :: rest) st = none ∧
    Handle (GoError.ext e) (GoAny.nonStr r :: rest) st = none :=
  ⟨rfl, rfl, rfl⟩

/-- C10: the dispatcher's type test recognizes only `ExtendedError`
*values*.  A pointer (`GoError.extPtr`, what the constructor returns) is
never delegated: with a string first context argument it is promoted — a
brand-new error is built by `New` that *wraps* the pointer — and otherwise
it passes through unchanged; whereas an `ExtendedError` value (the form
the method `Handle` returns, as the last conjunct shows) is delegated to
the method. -/
theorem C10_value_vs_pointer_dispatch (e : ExtendedError) (t : String)
    (rest msgs msgs2 : List GoAny) (st st2 : String) :
    Handle (GoError.extPtr e) (GoAny.str t :: rest) st =
      (concatMsg rest).bind
        (fun um => (New (GoError.extPtr e) t um).Handle [] st) ∧
    (∀ um, (New (GoError.extPtr e) t um).werr = GoError.extPtr e) ∧
    Handle (GoError.extPtr e) [] st = some (GoError.extPtr e, []) ∧
    Handle (GoError.extPtr e) (GoAny.nonStr t :: rest) st =
      some (GoError.extPtr e, []) ∧
    Handle (GoError.ext e) msgs st = e.Handle msgs st ∧
    e.Handle msgs st = (concatMsg msgs).map
      (fun lm => (GoError.ext (e.withHandled true), handle e lm st)) ∧
    Handle (GoError.ext (e.withHandled true)) msgs2 st2 =
      (e.withHandled true).Handle msgs2 st2 := by
  refine ⟨?_, ?_, rfl, rfl, rfl, ?_, rfl⟩
  · cases hcm : concatMsg rest with
    | none => simp [Handle, hcm]
    | some um => simp [Handle, hcm]
  · intro um
    rw [New]
    split <;> rfl
  · cases hcm : concatMsg msgs with
    | none => simp [ExtendedError.Handle, hcm]
    | some lm => simp [ExtendedError.Handle, hcm]
